import Mathlib

/-!
Shallow embedding of the `skills/blender/scripts` command-line utilities
(`batch_process.py`, `blender_runner.py`, `convert.py`, `modify_scene.py`,
`scene_info.py`).

Side-effecting boundaries are modelled as explicit parameters:
* the process environment is an association list `Env`;
* `.env` files are `Option (List String)` (present file contents as lines);
* filesystem existence checks are a predicate `pathExists : String → Bool`;
* `shutil.which "blender"` is an `Option String`;
* `subprocess.run cmd` is an oracle `run : List String → Int × String × String`
  returning `(returncode, stdout, stderr)`;
* every subprocess invocation is additionally recorded in an explicit trace
  of the command argument lists, so "no subprocess was invoked" is a
  statement about the trace.

Paths are POSIX-style strings; `pathName`, `pathSuffix`, `pathStem` mirror
`pathlib.PurePath.name/.suffix/.stem`.
-/

namespace Blender

/-- Python `str.strip(c)`: remove every leading and trailing occurrence of
the character `c`. -/
def stripChar (c : Char) (s : String) : String :=
  ⟨((s.data.dropWhile (· == c)).reverse.dropWhile (· == c)).reverse⟩

/-- Python `str.strip()`: remove leading and trailing whitespace. -/
def trimStr (s : String) : String :=
  ⟨((s.data.dropWhile Char.isWhitespace).reverse.dropWhile Char.isWhitespace).reverse⟩

/-- Python `str.startswith(c)` for a one-character prefix. -/
def startsWithChar (c : Char) (s : String) : Bool :=
  match s.data with
  | [] => false
  | x :: _ => x == c

/-- Python `c in s` for a single character. -/
def containsChar (c : Char) (s : String) : Bool :=
  s.data.contains c

/-- Python `str.lower()` (ASCII letters, which is all the scripts compare). -/
def lowerAscii (s : String) : String :=
  ⟨s.data.map Char.toLower⟩

/-- Split a character list at the first occurrence of `c`: the part before
and the part after (the whole list and `[]` when `c` is absent). -/
def breakAtChar (c : Char) : List Char → List Char × List Char
  | [] => ([], [])
  | x :: xs =>
    if x == c then ([], xs)
    else
      let r := breakAtChar c xs
      (x :: r.1, r.2)

/-- Python `str.partition("=")`: the text before the first `=` and the text
after it. -/
def partitionEq (s : String) : String × String :=
  ((⟨(breakAtChar '=' s.data).1⟩ : String), (⟨(breakAtChar '=' s.data).2⟩ : String))

/-- Split a character list on every occurrence of `c`. -/
def splitOnChar (c : Char) : List Char → List (List Char)
  | [] => [[]]
  | x :: xs =>
    let r := splitOnChar c xs
    if x == c then [] :: r
    else
      match r with
      | [] => [[x]]
      | h :: t => (x :: h) :: t

/-- `pathlib.PurePath.name` on a POSIX path: the final non-empty component. -/
def pathName (s : String) : String :=
  ⟨((((splitOnChar '/' s.data).filter (· ≠ [])).getLast?).getD [])⟩

/-- Index of the last occurrence of `c` in `l` (Python `str.rfind`). -/
def rfindChar (c : Char) (l : List Char) : Option Nat :=
  (l.reverse.findIdx? (· == c)).map (fun j => l.length - 1 - j)

/-- `pathlib.PurePath.suffix`: the extension of the final component,
including the dot; empty when the final component has no internal dot. -/
def pathSuffix (s : String) : String :=
  let name := (pathName s).data
  match rfindChar '.' name with
  | some i => if 0 < i ∧ i < name.length - 1 then ⟨name.drop i⟩ else ""
  | none => ""

/-- `pathlib.PurePath.stem`: the final component with its suffix removed. -/
def pathStem (s : String) : String :=
  let name := (pathName s).data
  match rfindChar '.' name with
  | some i => if 0 < i ∧ i < name.length - 1 then ⟨name.take i⟩ else ⟨name⟩
  | none => ⟨name⟩

/-- `pathlib` `/` on POSIX strings. -/
def joinPath (a b : String) : String :=
  if a = "" then b
  else if (match a.data.getLast? with | some c => c == '/' | none => false) then a ++ b
  else a ++ "/" ++ b

/-- Python `a or b` for optional strings, with Python truthiness
(`None` and `""` are falsy). -/
def pyOr (a b : Option String) : Option String :=
  match a with
  | some s => if s = "" then b else some s
  | none => b

/-- Python truthiness of an optional string: `some s` with `s` non-empty. -/
def pyStr? (o : Option String) : Option String :=
  match o with
  | some s => if s = "" then none else some s
  | none => none

/-- Python truthiness of an optional list: `some l` with `l` non-empty. -/
def pyList? (o : Option (List String)) : Option (List String) :=
  match o with
  | some l => if l.isEmpty then none else some l
  | none => none

/-- The process environment `os.environ`, as an association list. -/
abbrev Env := List (String × String)

/-- `os.environ.get k`. -/
def envGet (env : Env) (k : String) : Option String :=
  (env.find? (fun p => p.1 == k)).map (·.2)

/-- `os.environ.setdefault k v`: insert `(k, v)` only when `k` is absent. -/
def envSetdefault (env : Env) (k v : String) : Env :=
  if (envGet env k).isSome then env else env ++ [(k, v)]

/-- One iteration of the line loop in `load_env` (`batch_process.py`
lines 34-41, identical in `blender_runner.py`): strip the line, skip
blanks / comments / lines without `=`, split `key=value`, strip quotes,
and `setdefault` when both key and value are non-empty. -/
def processEnvLine (env : Env) (rawLine : String) : Env :=
  let line := trimStr rawLine
  if line = "" ∨ startsWithChar '#' line ∨ ¬ containsChar '=' line then env
  else
    let kv := partitionEq line
    let key := trimStr kv.1
    let value := stripChar '\'' (stripChar '"' (trimStr kv.2))
    if key = "" ∨ value = "" then env else envSetdefault env key value

/-- All lines of one `.env` file, in order. -/
def processEnvLines (env : Env) (lines : List String) : Env :=
  lines.foldl processEnvLine env

/-- `load_env` (`batch_process.py` lines 24-41 / `blender_runner.py` lines
19-36): read `cwd/.env` then `home/.env`, each only when it exists,
setdefault-ing every parsed entry into the environment. -/
def load_env (cwdEnvFile homeEnvFile : Option (List String)) (env : Env) : Env :=
  [cwdEnvFile, homeEnvFile].foldl
    (fun e file =>
      match file with
      | some lines => processEnvLines e lines
      | none => e)
    env

/-- The hard-coded candidate paths of `batch_process.find_blender`
(lines 52-56). -/
def batchCommonPaths : List String :=
  [ "/Applications/Blender.app/Contents/MacOS/Blender",
    "/usr/bin/blender",
    "/usr/local/bin/blender" ]

/-- `batch_process.find_blender` (lines 44-62): `BLENDER_EXE` if set, truthy
and existing; otherwise the first existing common path; otherwise
`shutil.which("blender")`. -/
def find_blender_batch (env : Env) (pathExists : String → Bool)
    (which : Option String) : Option String :=
  let fallback :=
    match batchCommonPaths.find? pathExists with
    | some p => some p
    | none => which
  match envGet env "BLENDER_EXE" with
  | some exe => if exe ≠ "" ∧ pathExists exe then some exe else fallback
  | none => fallback

/-- The candidate paths of `blender_runner.find_blender` (lines 47-60);
`home` is `Path.home()` and `PROGRAMFILES` is read from the environment
with default `""`. -/
def runnerCommonPaths (env : Env) (home : String) : List String :=
  let pf := (envGet env "PROGRAMFILES").getD ""
  [ "/Applications/Blender.app/Contents/MacOS/Blender",
    joinPath home "Applications/Blender.app/Contents/MacOS/Blender",
    "/usr/bin/blender",
    "/usr/local/bin/blender",
    "/snap/bin/blender",
    joinPath home ".local/bin/blender",
    joinPath pf "Blender Foundation/Blender/blender.exe",
    joinPath pf "Blender Foundation/Blender 4.0/blender.exe",
    joinPath pf "Blender Foundation/Blender 5.0/blender.exe" ]

/-- `blender_runner.find_blender` (lines 39-73): `BLENDER_EXE` if set,
truthy and existing; otherwise the first existing common path; otherwise
`shutil.which("blender")`; otherwise `None`. -/
def find_blender_runner (env : Env) (home : String) (pathExists : String → Bool)
    (which : Option String) : Option String :=
  let fallback :=
    match (runnerCommonPaths env home).find? pathExists with
    | some p => some p
    | none => which
  match envGet env "BLENDER_EXE" with
  | some exe => if exe ≠ "" ∧ pathExists exe then some exe else fallback
  | none => fallback

/-- The per-file record returned by `batch_process.process_file`
(lines 81-86). -/
structure RunResult where
  file : String
  returncode : Int
  stdout : String
  stderr : String
  deriving Repr, DecidableEq

/-- The command list built by `process_file` (lines 67-77): the base
invocation, then `-- extra_args`, and, when an output directory is given
and there are extra args, the `{output}` / `{stem}` placeholder
substitution applied to every argument. -/
def processFileCmd (blender_exe blend_file script : String)
    (output_dir : Option String) (extra_args : List String) : List String :=
  let cmd := [blender_exe, "-b", blend_file, "--python", script]
  if extra_args.isEmpty then cmd
  else
    let cmd := cmd ++ ["--"] ++ extra_args
    match pyStr? output_dir with
    | some od =>
        let output_file := joinPath od (pathName blend_file)
        (cmd.map (fun a => a.replace "{output}" output_file)).map
          (fun a => a.replace "{stem}" (pathStem blend_file))
    | none => cmd

/-- `batch_process.process_file` (lines 65-86): build the command, run it
as one subprocess, and return the record of file, return code and captured
output, together with the trace of subprocess invocations made. -/
def process_file (blender_exe blend_file script : String)
    (output_dir : Option String) (extra_args : List String)
    (run : List String → Int × String × String) :
    RunResult × List (List String) :=
  let cmd := processFileCmd blender_exe blend_file script output_dir extra_args
  let r := run cmd
  ({ file := blend_file, returncode := r.1, stdout := r.2.1, stderr := r.2.2 },
   [cmd])

/-- The summary line printed by `batch_process.main` (lines 143-146). -/
structure BatchSummary where
  processed : Nat
  success : Nat
  failed : Nat
  deriving Repr, DecidableEq

/-- Outcome of `batch_process.main`: early exit with no Blender found
(lines 107-109), early exit with no matching files (lines 113-115), or a
completed run with its per-file results, summary and exit code. -/
inductive BatchOutcome where
  | noBlender (exitCode : Nat) (stderrMsg : String)
  | noFiles (exitCode : Nat)
  | done (results : List RunResult) (summary : BatchSummary) (exitCode : Nat)
  deriving Repr, DecidableEq

/-- `batch_process.main` (lines 89-149). `files` is the list produced by
`args.input.glob(args.pattern)`. The parallel branch (lines 125-135)
collects results in completion order: `completionOrder` is the order in
which the submitted futures complete, a permutation of `files`; the
sequential branch (lines 136-141) processes `files` in order. The second
component is the trace of all subprocess invocations. -/
def batch_main (argsBlender : Option String)
    (cwdEnvFile homeEnvFile : Option (List String)) (env0 : Env)
    (pathExists : String → Bool) (which : Option String)
    (files : List String) (script : String) (outputDir : Option String)
    (extraArgs : List String) (parallel : Nat) (completionOrder : List String)
    (run : List String → Int × String × String) :
    BatchOutcome × List (List String) :=
  let env := load_env cwdEnvFile homeEnvFile env0
  match pyOr argsBlender (find_blender_batch env pathExists which) with
  | none => (.noBlender 1 "Error: Could not find Blender. Set BLENDER_EXE in .env", [])
  | some exe =>
    if files.isEmpty then (.noFiles 1, [])
    else
      let order := if parallel > 1 then completionOrder else files
      let resultsT := order.map
        (fun f => process_file exe f script outputDir extraArgs run)
      let results := resultsT.map (·.1)
      let trace := (resultsT.map (·.2)).flatten
      let success := results.countP (fun r => r.returncode == 0)
      let failed := results.length - success
      let summary : BatchSummary :=
        { processed := results.length, success := success, failed := failed }
      (.done results summary (if failed > 0 then 1 else 0), trace)

/-- The command list built by `blender_runner.run_blender` (lines 98-113). -/
def runBlenderCmd (blender_exe : String) (script blend_file python_expr : Option String)
    (script_args extra_args : Option (List String)) : List String :=
  let cmd := [blender_exe, "-b"]
  let cmd := match pyStr? blend_file with
    | some b => cmd ++ [b]
    | none => cmd
  let cmd := match pyList? extra_args with
    | some ea => cmd ++ ea
    | none => cmd
  let cmd := match pyStr? python_expr with
    | some e => cmd ++ ["--python-expr", e]
    | none =>
      match pyStr? script with
      | some s => cmd ++ ["--python", s]
      | none => cmd
  match pyList? script_args with
  | some sa => cmd ++ ["--"] ++ sa
  | none => cmd

/-- `blender_runner.run_blender` (lines 76-119): build the command and run
it as one subprocess; the second component is the trace of subprocess
invocations made. -/
def run_blender (blender_exe : String) (script blend_file python_expr : Option String)
    (script_args extra_args : Option (List String))
    (run : List String → Int × String × String) :
    (Int × String × String) × List (List String) :=
  let cmd := runBlenderCmd blender_exe script blend_file python_expr script_args extra_args
  (run cmd, [cmd])

/-- The parsed CLI arguments of `blender_runner.main` (lines 136-143). -/
structure RunnerArgs where
  script : Option String
  blend : Option String
  expr : Option String
  version : Bool
  blender : Option String
  args : List String
  unknown : List String

/-- Outcome of `blender_runner.main`: early exit with no Blender found
(lines 150-154), the `--version` branch (lines 157-166), an argparse error
(lines 169-173, argparse exits with code 2), or a completed run exiting
with the subprocess return code (lines 176-191). -/
inductive RunnerOutcome where
  | noBlender (exitCode : Nat) (stderrMsg : String)
  | versionShown (exitCode : Int)
  | argError (exitCode : Nat) (msg : String)
  | ran (exitCode : Int) (stdout stderr : String)
  deriving Repr, DecidableEq

/-- `blender_runner.main` (lines 122-191). The second component is the
trace of all subprocess invocations. -/
def runner_main (a : RunnerArgs)
    (cwdEnvFile homeEnvFile : Option (List String)) (env0 : Env)
    (home : String) (pathExists : String → Bool) (which : Option String)
    (run : List String → Int × String × String) :
    RunnerOutcome × List (List String) :=
  let env := load_env cwdEnvFile homeEnvFile env0
  match pyOr a.blender (find_blender_runner env home pathExists which) with
  | none => (.noBlender 1 "Error: Could not find Blender executable.", [])
  | some exe =>
    if a.version then
      let r := run_blender exe none none
        (some "import bpy; print(bpy.app.version_string)") none none run
      (.versionShown r.1.1, r.2)
    else if (pyStr? a.script).isNone ∧ (pyStr? a.expr).isNone then
      (.argError 2 "Either a script or --expr is required", [])
    else if (pyStr? a.script).isSome ∧ (pyStr? a.expr).isSome then
      (.argError 2 "Cannot specify both script and --expr", [])
    else
      let r := run_blender exe a.script a.blend a.expr
        (if a.args.isEmpty then none else some a.args)
        (if a.unknown.isEmpty then none else some a.unknown) run
      (.ran r.1.1 r.1.2.1 r.1.2.2, r.2)

/-- The `bpy` import operator selected by `convert.import_file`
(lines 37-54), one constructor per dispatch branch. -/
inductive ImportOp where
  | open_mainfile
  | import_scene_fbx
  | obj_import
  | import_scene_gltf
  | usd_import
  | alembic_import
  | stl_import
  | ply_import
  | collada_import
  deriving Repr, DecidableEq

/-- `convert.import_file` (lines 32-58): dispatch on the lower-cased
suffix of the input path; unsupported extensions raise `ValueError`. -/
def import_file (filepath : String) : Except String ImportOp :=
  let ext := lowerAscii (pathSuffix filepath)
  if ext = ".blend" then .ok .open_mainfile
  else if ext = ".fbx" then .ok .import_scene_fbx
  else if ext = ".obj" then .ok .obj_import
  else if ext = ".gltf" ∨ ext = ".glb" then .ok .import_scene_gltf
  else if ext = ".usd" ∨ ext = ".usda" ∨ ext = ".usdc" ∨ ext = ".usdz" then
    .ok .usd_import
  else if ext = ".abc" then .ok .alembic_import
  else if ext = ".stl" then .ok .stl_import
  else if ext = ".ply" then .ok .ply_import
  else if ext = ".dae" then .ok .collada_import
  else .error ("Unsupported import format: " ++ ext)

/-- The `bpy` export operator selected by `convert.export_file`
(lines 72-119), with the keyword arguments each branch passes. -/
inductive ExportOp where
  | export_scene_fbx (use_selection use_mesh_modifiers : Bool)
  | obj_export (export_selected_objects : Bool) (apply_modifiers : Bool)
  | export_scene_gltf (export_format : String) (use_selection export_apply : Bool)
  | usd_export (selected_objects_only : Bool)
  | alembic_export (selected : Bool)
  | stl_export (export_selected_objects : Bool) (apply_modifiers : Bool)
  | ply_export (export_selected_objects : Bool) (apply_modifiers : Bool)
  | collada_export (selected : Bool)
  deriving Repr, DecidableEq

/-- `convert.export_file` (lines 61-123): dispatch on the lower-cased
suffix of the output path; unsupported extensions raise `ValueError`. -/
def export_file (filepath : String) (selection_only : Bool := false)
    (apply_modifiers : Bool := true) : Except String ExportOp :=
  let ext := lowerAscii (pathSuffix filepath)
  let use_selection := selection_only
  if ext = ".fbx" then .ok (.export_scene_fbx use_selection apply_modifiers)
  else if ext = ".obj" then .ok (.obj_export use_selection apply_modifiers)
  else if ext = ".gltf" ∨ ext = ".glb" then
    .ok (.export_scene_gltf (if ext = ".glb" then "GLB" else "GLTF_SEPARATE")
      use_selection apply_modifiers)
  else if ext = ".usd" ∨ ext = ".usda" ∨ ext = ".usdc" ∨ ext = ".usdz" then
    .ok (.usd_export use_selection)
  else if ext = ".abc" then .ok (.alembic_export use_selection)
  else if ext = ".stl" then .ok (.stl_export use_selection apply_modifiers)
  else if ext = ".ply" then .ok (.ply_export use_selection apply_modifiers)
  else if ext = ".dae" then .ok (.collada_export use_selection)
  else .error ("Unsupported export format: " ++ ext)

/-- The extensions `import_file` dispatches on (the supported import set). -/
def supportedImportExts : List String :=
  [".blend", ".fbx", ".obj", ".gltf", ".glb", ".usd", ".usda", ".usdc",
   ".usdz", ".abc", ".stl", ".ply", ".dae"]

/-- The extensions `export_file` dispatches on (the supported export set). -/
def supportedExportExts : List String :=
  [".fbx", ".obj", ".gltf", ".glb", ".usd", ".usda", ".usdc", ".usdz",
   ".abc", ".stl", ".ply", ".dae"]

/-- `convert.main` (lines 126-157) after argument parsing: optional import
then export; an uncaught `ValueError` from either propagates as the error
of the whole run, failing the hosting process's script execution. -/
def convert_main (input : Option String) (output : String)
    (selection_only apply_modifiers clear : Bool) :
    Except String (Bool × Option ImportOp × ExportOp) :=
  match pyStr? input with
  | some i =>
    match import_file i with
    | .error e => .error e
    | .ok op =>
      match export_file output selection_only apply_modifiers with
      | .error e => .error e
      | .ok eop => .ok (clear, some op, eop)
  | none =>
    match export_file output selection_only apply_modifiers with
    | .error e => .error e
    | .ok eop => .ok (clear, none, eop)

/-- A view of one entry of `bpy.data.objects`: the fields the scripts read.
The object graph itself lives in the host application; this is the
read-only projection the scripting surface exposes. -/
structure SceneObj where
  name : String
  type : String
  location : List Rat
  rotation_euler : List Rat
  scale : List Rat
  parent : Option String
  visible : Bool
  meshVertices : Nat
  meshEdges : Nat
  meshFaces : Nat
  meshMaterials : List (Option String)
  deriving Repr, DecidableEq

/-- The host application's scene state, as exposed through `bpy.data`. -/
structure Scene where
  objects : List SceneObj
  deriving Repr, DecidableEq

/-- The per-object record built by `scene_info.get_objects_info`
(lines 30-45); `mesh` holds the vertex/face/edge counts and material
names added only for `MESH` objects. -/
structure ObjInfo where
  name : String
  type : String
  location : List Rat
  rotation : List Rat
  scale : List Rat
  parent : Option String
  visible : Bool
  mesh : Option (Nat × Nat × Nat × List (Option String))
  deriving Repr, DecidableEq

/-- `scene_info.get_objects_info` (lines 26-49): one record per object of
`bpy.data.objects`, reading fields only — a pure observation of the host
state that issues no mutation request. -/
def get_objects_info (scene : Scene) : List ObjInfo :=
  scene.objects.map (fun obj =>
    { name := obj.name
      type := obj.type
      location := obj.location
      rotation := obj.rotation_euler
      scale := obj.scale
      parent := obj.parent
      visible := obj.visible
      mesh :=
        if obj.type = "MESH" then
          some (obj.meshVertices, obj.meshFaces, obj.meshEdges, obj.meshMaterials)
        else none })

/-- A mutation request issued to the host application's scripting API.
Every state change a script performs is expressed as one of these; the
host interprets them and owns the resulting entity lifecycle. -/
inductive BpyReq where
  | modifiersNew (objName modName modType : String)
  | setModifierRatio (objName modName : String) (ratio : Rat)
  | setActiveObject (objName : String)
  | opModifierApply (modName : String)
  deriving Repr, DecidableEq

/-- `modify_scene.decimate_meshes` (lines 101-109): for every `MESH`
object, request a new `DECIMATE` modifier, set its ratio, make the object
active and apply the modifier. `host` is the host application's
interpretation of one request (it alone transforms the scene);
`newModifierName` is the host's choice of name for the modifier created by
`obj.modifiers.new` (Blender uniquifies requested names). Returns the
final scene and the trace of issued requests. `decimateStep` is one
iteration of the loop body. -/
def decimateStep (ratio : Rat) (host : Scene → BpyReq → Scene)
    (newModifierName : Scene → String → String → String)
    (acc : Scene × List BpyReq) (objName : String) : Scene × List BpyReq :=
  let modName := newModifierName acc.1 objName "Decimate"
  let reqs := [BpyReq.modifiersNew objName modName "DECIMATE",
               BpyReq.setModifierRatio objName modName ratio,
               BpyReq.setActiveObject objName,
               BpyReq.opModifierApply modName]
  (reqs.foldl host acc.1, acc.2 ++ reqs)

def decimate_meshes (ratio : Rat) (scene : Scene)
    (host : Scene → BpyReq → Scene)
    (newModifierName : Scene → String → String → String) :
    Scene × List BpyReq :=
  let meshNames := (scene.objects.filter (fun o => o.type = "MESH")).map SceneObj.name
  meshNames.foldl (decimateStep ratio host newModifierName) (scene, [])

/-! Helper definitions naming the intermediate values of `batch_main`'s
processing branch, and lemmas shared by the claim theorems. -/

/-- The order in which `batch_main` processes files: the future completion
order when `--parallel` exceeds 1, the glob order otherwise. -/
def batchOrder (parallel : Nat) (files order : List String) : List String :=
  if parallel > 1 then order else files

/-- The per-file records `batch_main` collects, in processing order. -/
def batchResults (exe script : String) (outputDir : Option String)
    (extraArgs : List String) (run : List String → Int × String × String)
    (order : List String) : List RunResult :=
  order.map (fun f => (process_file exe f script outputDir extraArgs run).1)

/-- The summary `batch_main` prints (lines 144-146). -/
def summaryOf (results : List RunResult) : BatchSummary :=
  { processed := results.length
    success := results.countP (fun r => r.returncode == 0)
    failed := results.length - results.countP (fun r => r.returncode == 0) }

/-- The aggregate exit code of `batch_main` (lines 148-149). -/
def exitCodeOf (results : List RunResult) : Nat :=
  if results.length - results.countP (fun r => r.returncode == 0) > 0 then 1 else 0

theorem flatten_map_singleton {α β : Type} (g : α → β) (l : List α) :
    (l.map (fun a => [g a])).flatten = l.map g := by
  induction l with
  | nil => rfl
  | cons a t ih => simp [ih]

/-- When a Blender executable is resolved and the glob matched at least one
file, `batch_main` reaches the processing branch and returns the results,
summary, exit code and subprocess trace in closed form. -/
theorem batch_main_eq_done (argsBlender : Option String)
    (cwdF homeF : Option (List String)) (env0 : Env) (pE : String → Bool)
    (which : Option String) (files : List String) (script : String)
    (oD : Option String) (eA : List String) (par : Nat) (ord : List String)
    (run : List String → Int × String × String) (exe : String)
    (hexe : pyOr argsBlender (find_blender_batch (load_env cwdF homeF env0) pE which) = some exe)
    (hf : files ≠ []) :
    batch_main argsBlender cwdF homeF env0 pE which files script oD eA par ord run =
      (BatchOutcome.done (batchResults exe script oD eA run (batchOrder par files ord))
        (summaryOf (batchResults exe script oD eA run (batchOrder par files ord)))
        (exitCodeOf (batchResults exe script oD eA run (batchOrder par files ord))),
       (batchOrder par files ord).map (fun f => processFileCmd exe f script oD eA)) := by
  have hf' : files.isEmpty = false := by
    cases files with
    | nil => exact absurd rfl hf
    | cons a l => rfl
  simp only [batch_main]
  rw [hexe]
  simp only [hf', Bool.false_eq_true, if_false]
  simp only [batchResults, summaryOf, exitCodeOf, batchOrder, List.map_map]
  refine congrArg (Prod.mk _) ?_
  have : (fun f => process_file exe f script oD eA run) =
      (fun f => ((process_file exe f script oD eA run).1,
                 [processFileCmd exe f script oD eA])) := by
    funext f
    rfl
  rw [this]
  exact flatten_map_singleton (fun f => processFileCmd exe f script oD eA)
    (if par > 1 then ord else files)

/-- `batchOrder` has as many entries as the matched file list, given the
parallel branch's completion order is a permutation of it. -/
theorem batchOrder_length (par : Nat) (files ord : List String)
    (hord : par > 1 → ord.Perm files) :
    (batchOrder par files ord).length = files.length := by
  unfold batchOrder
  split
  · exact List.Perm.length_eq (hord (by assumption))
  · rfl

/-- C1: for every run of batch_process that reaches the processing stage
over the N files matched by the glob pattern, the aggregate report has
exactly N per-file entries, the reported success count is the number of
entries with return code 0, the reported failed count is N minus the
success count, and the reported processed total is N. -/
theorem C1_batch_report_counts (argsBlender : Option String)
    (cwdF homeF : Option (List String)) (env0 : Env) (pE : String → Bool)
    (which : Option String) (files : List String) (script : String)
    (oD : Option String) (eA : List String) (par : Nat) (ord : List String)
    (run : List String → Int × String × String) (exe : String)
    (hexe : pyOr argsBlender (find_blender_batch (load_env cwdF homeF env0) pE which) = some exe)
    (hf : files ≠ [])
    (hord : par > 1 → ord.Perm files) :
    ∃ results summary ec trace,
      batch_main argsBlender cwdF homeF env0 pE which files script oD eA par ord run
        = (BatchOutcome.done results summary ec, trace) ∧
      results.length = files.length ∧
      summary.processed = files.length ∧
      summary.success = results.countP (fun r => r.returncode == 0) ∧
      summary.failed = files.length - summary.success := by
  have hlen : (batchResults exe script oD eA run (batchOrder par files ord)).length
      = files.length := by
    unfold batchResults
    rw [List.length_map]
    exact batchOrder_length par files ord hord
  refine ⟨_, _, _, _,
    batch_main_eq_done argsBlender cwdF homeF env0 pE which files script oD eA
      par ord run exe hexe hf, hlen, ?_, rfl, ?_⟩
  · exact hlen
  · simp only [summaryOf, hlen]

/-- Concrete instantiation of `C1_batch_report_counts`: one matched file,
sequential mode, a subprocess that succeeds. -/
theorem C1_batch_report_counts_witness :
    ∃ results summary ec trace,
      batch_main (some "blender") none none [] (fun _ => false) none
        ["a.blend"] "s.py" none [] 1 [] (fun _ => (0, "", ""))
        = (BatchOutcome.done results summary ec, trace) ∧
      results.length = (["a.blend"] : List String).length ∧
      summary.processed = (["a.blend"] : List String).length ∧
      summary.success = results.countP (fun r => r.returncode == 0) ∧
      summary.failed = (["a.blend"] : List String).length - summary.success :=
  C1_batch_report_counts (some "blender") none none [] (fun _ => false) none
    ["a.blend"] "s.py" none [] 1 [] (fun _ => (0, "", "")) "blender"
    (by decide) (by decide) (fun h => absurd h (by decide))

theorem countP_lt_length_iff {α : Type} (p : α → Bool) (l : List α) :
    l.countP p < l.length ↔ ∃ a ∈ l, ¬ p a = true := by
  constructor
  · intro h
    by_contra hc
    push_neg at hc
    have hall : ∀ a ∈ l, p a = true := hc
    rw [List.countP_eq_length.mpr hall] at h
    exact lt_irrefl _ h
  · rintro ⟨a, ha, hpa⟩
    have hle : l.countP p ≤ l.length := List.countP_le_length p
    rcases Nat.lt_or_ge (l.countP p) l.length with h | h
    · exact h
    · exact absurd (List.countP_eq_length.mp (le_antisymm hle h) a ha) hpa

/-- The aggregate exit code is non-zero exactly when some per-file record
has a non-zero return code. -/
theorem exitCodeOf_ne_zero_iff (R : List RunResult) :
    exitCodeOf R ≠ 0 ↔ ∃ r ∈ R, r.returncode ≠ 0 := by
  unfold exitCodeOf
  split
  · rename_i h
    constructor
    · intro _
      have hlt : R.countP (fun r => r.returncode == 0) < R.length := by omega
      obtain ⟨r, hr, hp⟩ := (countP_lt_length_iff _ R).mp hlt
      exact ⟨r, hr, by simpa using hp⟩
    · intro _
      decide
  · rename_i h
    constructor
    · intro h0
      exact absurd rfl h0
    · rintro ⟨r, hr, hne⟩
      exfalso
      have hle : R.countP (fun r => r.returncode == 0) ≤ R.length :=
        List.countP_le_length _
      have hcount : R.countP (fun r => r.returncode == 0) = R.length := by omega
      have := List.countP_eq_length.mp hcount r hr
      simp only [beq_iff_eq] at this
      exact hne this

/-- C2: for every run of batch_process that processes at least one file,
the aggregate exit code is non-zero exactly when some per-file subprocess
returned a non-zero exit code, and the non-zero codes are collected into
the full per-file result list (one entry per matched file) rather than
aborting the run. -/
theorem C2_batch_failure_aggregation (argsBlender : Option String)
    (cwdF homeF : Option (List String)) (env0 : Env) (pE : String → Bool)
    (which : Option String) (files : List String) (script : String)
    (oD : Option String) (eA : List String) (par : Nat) (ord : List String)
    (run : List String → Int × String × String) (exe : String)
    (hexe : pyOr argsBlender (find_blender_batch (load_env cwdF homeF env0) pE which) = some exe)
    (hf : files ≠ [])
    (hord : par > 1 → ord.Perm files) :
    ∃ results summary ec trace,
      batch_main argsBlender cwdF homeF env0 pE which files script oD eA par ord run
        = (BatchOutcome.done results summary ec, trace) ∧
      (ec ≠ 0 ↔ ∃ r ∈ results, r.returncode ≠ 0) ∧
      results.length = files.length := by
  refine ⟨_, _, _, _,
    batch_main_eq_done argsBlender cwdF homeF env0 pE which files script oD eA
      par ord run exe hexe hf, exitCodeOf_ne_zero_iff _, ?_⟩
  unfold batchResults
  rw [List.length_map]
  exact batchOrder_length par files ord hord

/-- Concrete instantiation of `C2_batch_failure_aggregation`: two matched
files whose subprocesses both fail with exit code 1. -/
theorem C2_batch_failure_aggregation_witness :
    ∃ results summary ec trace,
      batch_main (some "blender") none none [] (fun _ => false) none
        ["a.blend", "b.blend"] "s.py" none [] 1 [] (fun _ => (1, "", "boom"))
        = (BatchOutcome.done results summary ec, trace) ∧
      (ec ≠ 0 ↔ ∃ r ∈ results, r.returncode ≠ 0) ∧
      results.length = (["a.blend", "b.blend"] : List String).length :=
  C2_batch_failure_aggregation (some "blender") none none [] (fun _ => false)
    none ["a.blend", "b.blend"] "s.py" none [] 1 [] (fun _ => (1, "", "boom"))
    "blender" (by decide) (by decide) (fun h => absurd h (by decide))

/-- C6: every matched file is processed exactly once — the multiset of
file names in the results is exactly the matched file list, for every
subprocess oracle (so failures of some files neither trigger retries nor
prevent the remaining files from being processed). -/
theorem C6_each_file_processed_once (argsBlender : Option String)
    (cwdF homeF : Option (List String)) (env0 : Env) (pE : String → Bool)
    (which : Option String) (files : List String) (script : String)
    (oD : Option String) (eA : List String) (par : Nat) (ord : List String)
    (run : List String → Int × String × String) (exe : String)
    (hexe : pyOr argsBlender (find_blender_batch (load_env cwdF homeF env0) pE which) = some exe)
    (hf : files ≠ [])
    (hord : par > 1 → ord.Perm files) :
    ∃ results summary ec trace,
      batch_main argsBlender cwdF homeF env0 pE which files script oD eA par ord run
        = (BatchOutcome.done results summary ec, trace) ∧
      (results.map RunResult.file).Perm files ∧
      results.length = files.length := by
  have hmapfile : (batchResults exe script oD eA run (batchOrder par files ord)).map
      RunResult.file = batchOrder par files ord := by
    unfold batchResults
    rw [List.map_map]
    have hcomp : RunResult.file ∘ (fun f => (process_file exe f script oD eA run).1)
        = id := funext fun f => rfl
    rw [hcomp, List.map_id]
  have hperm : (batchOrder par files ord).Perm files := by
    unfold batchOrder
    split
    · exact hord (by assumption)
    · exact List.Perm.refl files
  refine ⟨_, _, _, _,
    batch_main_eq_done argsBlender cwdF homeF env0 pE which files script oD eA
      par ord run exe hexe hf, ?_, ?_⟩
  · rw [hmapfile]
    exact hperm
  · unfold batchResults
    rw [List.length_map]
    exact batchOrder_length par files ord hord

/-- Concrete instantiation of `C6_each_file_processed_once`: parallel mode
with a completion order different from submission order and one failing
file. -/
theorem C6_each_file_processed_once_witness :
    ∃ results summary ec trace,
      batch_main (some "blender") none none [] (fun _ => false) none
        ["a.blend", "b.blend"] "s.py" none [] 2 ["b.blend", "a.blend"]
        (fun c => if c.getD 2 "" = "a.blend" then (1, "", "err") else (0, "", ""))
        = (BatchOutcome.done results summary ec, trace) ∧
      (results.map RunResult.file).Perm ["a.blend", "b.blend"] ∧
      results.length = (["a.blend", "b.blend"] : List String).length :=
  C6_each_file_processed_once (some "blender") none none [] (fun _ => false)
    none ["a.blend", "b.blend"] "s.py" none [] 2 ["b.blend", "a.blend"]
    (fun c => if c.getD 2 "" = "a.blend" then (1, "", "err") else (0, "", ""))
    "blender" (by decide) (by decide) (fun _ => List.Perm.swap _ _ _)

theorem summaryOf_perm {R S : List RunResult} (h : R.Perm S) :
    summaryOf R = summaryOf S := by
  unfold summaryOf
  rw [h.length_eq, h.countP_eq]

theorem exitCodeOf_perm {R S : List RunResult} (h : R.Perm S) :
    exitCodeOf R = exitCodeOf S := by
  unfold exitCodeOf
  rw [h.length_eq, h.countP_eq]

/-- C8: in parallel mode the results are collected in completion order —
any permutation of the matched files — and for every completion order the
collected results are a permutation of the sequential run's results with
the same summary and the same aggregate exit code; each worker's record
depends only on its own file, and every file appears exactly once (no
cancellation, no retries). -/
theorem C8_parallel_completion_order (argsBlender : Option String)
    (cwdF homeF : Option (List String)) (env0 : Env) (pE : String → Bool)
    (which : Option String) (files : List String) (script : String)
    (oD : Option String) (eA : List String) (par : Nat) (ord : List String)
    (run : List String → Int × String × String) (exe : String)
    (hexe : pyOr argsBlender (find_blender_batch (load_env cwdF homeF env0) pE which) = some exe)
    (hf : files ≠ [])
    (hpar : par > 1)
    (hord : ord.Perm files) :
    ∃ rp sp ecp tp rs ss ecs ts,
      batch_main argsBlender cwdF homeF env0 pE which files script oD eA par ord run
        = (BatchOutcome.done rp sp ecp, tp) ∧
      batch_main argsBlender cwdF homeF env0 pE which files script oD eA 1 files run
        = (BatchOutcome.done rs ss ecs, ts) ∧
      rp = ord.map (fun f => (process_file exe f script oD eA run).1) ∧
      rp.Perm rs ∧ sp = ss ∧ ecp = ecs := by
  have hbp : batchOrder par files ord = ord := by
    unfold batchOrder
    rw [if_pos hpar]
  have hbs : batchOrder 1 files files = files := by
    unfold batchOrder
    rw [if_neg (by omega)]
  have hperm : (batchResults exe script oD eA run ord).Perm
      (batchResults exe script oD eA run files) :=
    hord.map (fun f => (process_file exe f script oD eA run).1)
  refine ⟨_, _, _, _, _, _, _, _,
    batch_main_eq_done argsBlender cwdF homeF env0 pE which files script oD eA
      par ord run exe hexe hf,
    batch_main_eq_done argsBlender cwdF homeF env0 pE which files script oD eA
      1 files run exe hexe hf, ?_, ?_, ?_, ?_⟩
  · rw [hbp]
    rfl
  · rw [hbp, hbs]
    exact hperm
  · rw [hbp, hbs]
    exact summaryOf_perm hperm
  · rw [hbp, hbs]
    exact exitCodeOf_perm hperm

/-- Concrete instantiation of `C8_parallel_completion_order`: two files
completing in reversed order, one of them failing. -/
theorem C8_parallel_completion_order_witness :
    ∃ rp sp ecp tp rs ss ecs ts,
      batch_main (some "blender") none none [] (fun _ => false) none
        ["a.blend", "b.blend"] "s.py" none [] 2 ["b.blend", "a.blend"]
        (fun c => if c.getD 2 "" = "a.blend" then (1, "", "err") else (0, "", ""))
        = (BatchOutcome.done rp sp ecp, tp) ∧
      batch_main (some "blender") none none [] (fun _ => false) none
        ["a.blend", "b.blend"] "s.py" none [] 1 ["a.blend", "b.blend"]
        (fun c => if c.getD 2 "" = "a.blend" then (1, "", "err") else (0, "", ""))
        = (BatchOutcome.done rs ss ecs, ts) ∧
      rp = (["b.blend", "a.blend"] : List String).map
        (fun f => (process_file "blender" f "s.py" none []
          (fun c => if c.getD 2 "" = "a.blend" then (1, "", "err") else (0, "", ""))).1) ∧
      rp.Perm rs ∧ sp = ss ∧ ecp = ecs :=
  C8_parallel_completion_order (some "blender") none none [] (fun _ => false)
    none ["a.blend", "b.blend"] "s.py" none [] 2 ["b.blend", "a.blend"]
    (fun c => if c.getD 2 "" = "a.blend" then (1, "", "err") else (0, "", ""))
    "blender" (by decide) (by decide) (by decide) (List.Perm.swap _ _ _)

/-- C4: in both blender_runner and batch_process, when no executable is
supplied via `--blender` (absent or empty) and none can be located from the
environment variable, common paths, or PATH, main reports the error on
stderr and exits with code 1, with an empty subprocess trace (no subprocess
is invoked). -/
theorem C4_no_blender_early_exit (a : RunnerArgs) (argsBlender : Option String)
    (cwdF homeF : Option (List String)) (env0 : Env) (home : String)
    (pE : String → Bool) (which : Option String) (files : List String)
    (script : String) (oD : Option String) (eA : List String) (par : Nat)
    (ord : List String) (run : List String → Int × String × String) :
    ((a.blender = none ∨ a.blender = some "") →
      find_blender_runner (load_env cwdF homeF env0) home pE which = none →
      runner_main a cwdF homeF env0 home pE which run
        = (RunnerOutcome.noBlender 1 "Error: Could not find Blender executable.", [])) ∧
    ((argsBlender = none ∨ argsBlender = some "") →
      find_blender_batch (load_env cwdF homeF env0) pE which = none →
      batch_main argsBlender cwdF homeF env0 pE which files script oD eA par ord run
        = (BatchOutcome.noBlender 1
            "Error: Could not find Blender. Set BLENDER_EXE in .env", [])) := by
  constructor
  · intro hargs hfind
    have hpy : pyOr a.blender (find_blender_runner (load_env cwdF homeF env0) home pE which)
        = none := by
      rcases hargs with h | h <;> rw [h] <;> simp [pyOr, hfind]
    simp only [runner_main]
    rw [hpy]
  · intro hargs hfind
    have hpy : pyOr argsBlender (find_blender_batch (load_env cwdF homeF env0) pE which)
        = none := by
      rcases hargs with h | h <;> rw [h] <;> simp [pyOr, hfind]
    simp only [batch_main]
    rw [hpy]

/-- Concrete instantiation of `C4_no_blender_early_exit`: no `--blender`,
empty environment, nothing on disk, nothing on PATH. -/
theorem C4_no_blender_early_exit_witness :
    runner_main ⟨some "s.py", none, none, false, none, [], []⟩ none none [] "/home/u"
        (fun _ => false) none (fun _ => (0, "", ""))
      = (RunnerOutcome.noBlender 1 "Error: Could not find Blender executable.", []) ∧
    batch_main none none none [] (fun _ => false) none ["a.blend"] "s.py" none [] 1 []
        (fun _ => (0, "", ""))
      = (BatchOutcome.noBlender 1
          "Error: Could not find Blender. Set BLENDER_EXE in .env", []) :=
  ⟨(C4_no_blender_early_exit ⟨some "s.py", none, none, false, none, [], []⟩ none
      none none [] "/home/u" (fun _ => false) none ["a.blend"] "s.py" none [] 1 []
      (fun _ => (0, "", ""))).1 (Or.inl rfl) (by decide),
   (C4_no_blender_early_exit ⟨some "s.py", none, none, false, none, [], []⟩ none
      none none [] "/home/u" (fun _ => false) none ["a.blend"] "s.py" none [] 1 []
      (fun _ => (0, "", ""))).2 (Or.inl rfl) (by decide)⟩

/-- C5: for every input file handed to a worker, process_file invokes
exactly one subprocess (its trace is the one built command) and returns
the record holding that file's path and the subprocess's exit code and
captured stdout and stderr. -/
theorem C5_process_file_single_subprocess (exe file script : String)
    (outputDir : Option String) (extraArgs : List String)
    (run : List String → Int × String × String) :
    ∃ cmd, process_file exe file script outputDir extraArgs run
      = ({ file := file, returncode := (run cmd).1, stdout := (run cmd).2.1,
           stderr := (run cmd).2.2 }, [cmd]) :=
  ⟨processFileCmd exe file script outputDir extraArgs, rfl⟩

theorem import_file_unsupported (fp : String)
    (h : lowerAscii (pathSuffix fp) ∉ supportedImportExts) : import_file fp
      = .error ("Unsupported import format: " ++ lowerAscii (pathSuffix fp)) := by
  obtain ⟨h1, h2, h3, h4, h5, h6, h7, h8, h9, h10, h11, h12, h13⟩ :
      ¬lowerAscii (pathSuffix fp) = ".blend" ∧ ¬lowerAscii (pathSuffix fp) = ".fbx" ∧
      ¬lowerAscii (pathSuffix fp) = ".obj" ∧ ¬lowerAscii (pathSuffix fp) = ".gltf" ∧
      ¬lowerAscii (pathSuffix fp) = ".glb" ∧ ¬lowerAscii (pathSuffix fp) = ".usd" ∧
      ¬lowerAscii (pathSuffix fp) = ".usda" ∧ ¬lowerAscii (pathSuffix fp) = ".usdc" ∧
      ¬lowerAscii (pathSuffix fp) = ".usdz" ∧ ¬lowerAscii (pathSuffix fp) = ".abc" ∧
      ¬lowerAscii (pathSuffix fp) = ".stl" ∧ ¬lowerAscii (pathSuffix fp) = ".ply" ∧
      ¬lowerAscii (pathSuffix fp) = ".dae" := by
    simpa [supportedImportExts, not_or] using h
  simp [import_file, h1, h2, h3, h4, h5, h6, h7, h8, h9, h10, h11, h12, h13]

theorem export_file_unsupported (fp : String) (sel app : Bool)
    (h : lowerAscii (pathSuffix fp) ∉ supportedExportExts) :
    export_file fp sel app
      = .error ("Unsupported export format: " ++ lowerAscii (pathSuffix fp)) := by
  obtain ⟨h1, h2, h3, h4, h5, h6, h7, h8, h9, h10, h11, h12⟩ :
      ¬lowerAscii (pathSuffix fp) = ".fbx" ∧ ¬lowerAscii (pathSuffix fp) = ".obj" ∧
      ¬lowerAscii (pathSuffix fp) = ".gltf" ∧ ¬lowerAscii (pathSuffix fp) = ".glb" ∧
      ¬lowerAscii (pathSuffix fp) = ".usd" ∧ ¬lowerAscii (pathSuffix fp) = ".usda" ∧
      ¬lowerAscii (pathSuffix fp) = ".usdc" ∧ ¬lowerAscii (pathSuffix fp) = ".usdz" ∧
      ¬lowerAscii (pathSuffix fp) = ".abc" ∧ ¬lowerAscii (pathSuffix fp) = ".stl" ∧
      ¬lowerAscii (pathSuffix fp) = ".ply" ∧ ¬lowerAscii (pathSuffix fp) = ".dae" := by
    simpa [supportedExportExts, not_or] using h
  simp [export_file, h1, h2, h3, h4, h5, h6, h7, h8, h9, h10, h11, h12]

/-- C3: an input path whose lower-cased suffix is not in the supported
set of import extensions makes import_file raise `ValueError` instead of
doing an import; an output path whose lower-cased suffix is not in the
supported set of export extensions makes export_file raise instead of
exporting; and in the convert entry point either raised error propagates,
failing the run. -/
theorem C3_unsupported_extension_raises (fp : String) :
    (lowerAscii (pathSuffix fp) ∉ supportedImportExts → import_file fp
        = .error ("Unsupported import format: " ++ lowerAscii (pathSuffix fp))) ∧
    (∀ sel app : Bool, lowerAscii (pathSuffix fp) ∉ supportedExportExts →
      export_file fp sel app
        = .error ("Unsupported export format: " ++ lowerAscii (pathSuffix fp))) ∧
    (∀ (out : String) (sel app clr : Bool), fp ≠ "" →
      lowerAscii (pathSuffix fp) ∉ supportedImportExts →
      convert_main (some fp) out sel app clr
        = .error ("Unsupported import format: " ++ lowerAscii (pathSuffix fp))) ∧
    (∀ (inp : Option String) (sel app clr : Bool),
      lowerAscii (pathSuffix fp) ∉ supportedExportExts →
      ∃ msg, convert_main inp fp sel app clr = .error msg) := by
  refine ⟨import_file_unsupported fp, fun sel app => export_file_unsupported fp sel app,
    ?_, ?_⟩
  · intro out sel app clr hfp h
    simp [convert_main, pyStr?, hfp, import_file_unsupported fp h]
  · intro inp sel app clr hout
    cases hinp : pyStr? inp with
    | none =>
      exact ⟨"Unsupported export format: " ++ lowerAscii (pathSuffix fp),
        by simp [convert_main, hinp, export_file_unsupported fp sel app hout]⟩
    | some i =>
      cases himp : import_file i with
      | error m => exact ⟨m, by simp [convert_main, hinp, himp]⟩
      | ok op =>
        exact ⟨"Unsupported export format: " ++ lowerAscii (pathSuffix fp),
          by simp [convert_main, hinp, himp,
            export_file_unsupported fp sel app hout]⟩

/-- Concrete instantiation of `C3_unsupported_extension_raises` at the
unsupported extension `.xyz`. -/
theorem C3_unsupported_extension_raises_witness : import_file "model.xyz"
      = .error ("Unsupported import format: " ++ lowerAscii (pathSuffix "model.xyz")) ∧
    export_file "out.xyz" false true
      = .error ("Unsupported export format: " ++ lowerAscii (pathSuffix "out.xyz")) ∧
    convert_main (some "model.xyz") "out.glb" false true false
      = .error ("Unsupported import format: " ++ lowerAscii (pathSuffix "model.xyz")) := by
  refine ⟨(C3_unsupported_extension_raises "model.xyz").1 (by decide),
    (C3_unsupported_extension_raises "out.xyz").2.1 false true (by decide),
    (C3_unsupported_extension_raises "model.xyz").2.2.1 "out.glb" false true false
      (by decide) (by decide)⟩

/-- The common shape of the two `find_blender` functions: `BLENDER_EXE`
first, then the first existing entry of `paths`, then
`shutil.which("blender")`. -/
def findBlenderVia (paths : List String) (env : Env) (pathExists : String → Bool)
    (which : Option String) : Option String :=
  let fallback :=
    match paths.find? pathExists with
    | some p => some p
    | none => which
  match envGet env "BLENDER_EXE" with
  | some exe => if exe ≠ "" ∧ pathExists exe then some exe else fallback
  | none => fallback

theorem find_blender_batch_eq_via (env : Env) (pE : String → Bool)
    (which : Option String) :
    find_blender_batch env pE which = findBlenderVia batchCommonPaths env pE which := rfl

theorem find_blender_runner_eq_via (env : Env) (home : String) (pE : String → Bool)
    (which : Option String) :
    find_blender_runner env home pE which
      = findBlenderVia (runnerCommonPaths env home) env pE which := rfl

theorem findBlenderVia_env_hit (paths : List String) (env : Env)
    (pE : String → Bool) (which : Option String) (v : String)
    (hv : envGet env "BLENDER_EXE" = some v) (hne : v ≠ "") (hex : pE v = true) :
    findBlenderVia paths env pE which = some v := by
  simp [findBlenderVia, hv, hne, hex]

theorem findBlenderVia_fallback_none (paths : List String) (pE : String → Bool)
    (which : Option String)
    (hx : (match paths.find? pE with
           | some p => some p
           | none => which) = none) :
    (∀ p ∈ paths, pE p = false) ∧ which = none := by
  cases hfind : paths.find? pE with
  | some p =>
    rw [hfind] at hx
    exact absurd hx (by simp)
  | none =>
    rw [hfind] at hx
    refine ⟨fun p hp => ?_, hx⟩
    have := List.find?_eq_none.mp hfind p hp
    simpa using this

theorem findBlenderVia_none (paths : List String) (env : Env)
    (pE : String → Bool) (which : Option String)
    (hres : findBlenderVia paths env pE which = none) :
    (∀ w, envGet env "BLENDER_EXE" = some w → w = "" ∨ pE w = false) ∧
    (∀ p ∈ paths, pE p = false) ∧ which = none := by
  simp only [findBlenderVia] at hres
  cases hv : envGet env "BLENDER_EXE" with
  | none =>
    rw [hv] at hres
    have hres2 : (match List.find? pE paths with
        | some p => some p
        | none => which) = none := hres
    obtain ⟨h1, h2⟩ := findBlenderVia_fallback_none paths pE which hres2
    refine ⟨fun w hw => ?_, h1, h2⟩
    exact absurd hw (by simp)
  | some exe =>
    rw [hv] at hres
    have hres2 : (if exe ≠ "" ∧ pE exe = true then some exe
        else (match List.find? pE paths with
              | some p => some p
              | none => which)) = none := hres
    by_cases hcond : exe ≠ "" ∧ pE exe = true
    · rw [if_pos hcond] at hres2
      exact absurd hres2 (by simp)
    · rw [if_neg hcond] at hres2
      obtain ⟨h1, h2⟩ := findBlenderVia_fallback_none paths pE which hres2
      refine ⟨fun w hw => ?_, h1, h2⟩
      injection hw with he
      subst he
      by_cases he' : exe = ""
      · exact Or.inl he'
      · right
        cases hpe : pE exe with
        | false => rfl
        | true => exact absurd ⟨he', hpe⟩ hcond

/-- C9: when `BLENDER_EXE` is set to a non-empty value naming an existing
path, both find_blender functions return exactly that value, regardless of
common installation paths and of PATH lookup; and either function yields no
executable only when the env var is unset, empty or stale, no common path
exists, and `blender` is not on PATH. -/
theorem C9_find_blender_precedence (env : Env) (home : String)
    (pE : String → Bool) (which : Option String) :
    (∀ v, envGet env "BLENDER_EXE" = some v → v ≠ "" → pE v = true →
      find_blender_batch env pE which = some v ∧
      find_blender_runner env home pE which = some v) ∧
    (find_blender_batch env pE which = none →
      (∀ w, envGet env "BLENDER_EXE" = some w → w = "" ∨ pE w = false) ∧
      (∀ p ∈ batchCommonPaths, pE p = false) ∧ which = none) ∧
    (find_blender_runner env home pE which = none →
      (∀ w, envGet env "BLENDER_EXE" = some w → w = "" ∨ pE w = false) ∧
      (∀ p ∈ runnerCommonPaths env home, pE p = false) ∧ which = none) := by
  refine ⟨?_, ?_, ?_⟩
  · intro v hv hne hex
    rw [find_blender_batch_eq_via, find_blender_runner_eq_via]
    exact ⟨findBlenderVia_env_hit _ env pE which v hv hne hex,
      findBlenderVia_env_hit _ env pE which v hv hne hex⟩
  · intro hres
    exact findBlenderVia_none batchCommonPaths env pE which
      (find_blender_batch_eq_via env pE which ▸ hres)
  · intro hres
    exact findBlenderVia_none (runnerCommonPaths env home) env pE which
      (find_blender_runner_eq_via env home pE which ▸ hres)

/-- Concrete instantiation of `C9_find_blender_precedence`: `BLENDER_EXE`
pointing at an existing custom path wins although `/usr/bin/blender` also
exists and PATH lookup would succeed; and with nothing set and nothing on
disk both lookups return none. -/
theorem C9_find_blender_precedence_witness :
    find_blender_batch [("BLENDER_EXE", "/opt/bl")]
        (fun p => p = "/opt/bl" ∨ p = "/usr/bin/blender") (some "/path/blender")
      = some "/opt/bl" ∧
    find_blender_runner [("BLENDER_EXE", "/opt/bl")] "/home/u"
        (fun p => p = "/opt/bl" ∨ p = "/usr/bin/blender") (some "/path/blender")
      = some "/opt/bl" ∧
    ((find_blender_batch [] (fun _ => false) none = none →
      ∀ p ∈ batchCommonPaths, (fun _ => false : String → Bool) p = false)) :=
  ⟨((C9_find_blender_precedence [("BLENDER_EXE", "/opt/bl")] "/home/u"
      (fun p => p = "/opt/bl" ∨ p = "/usr/bin/blender") (some "/path/blender")).1
      "/opt/bl" (by decide) (by decide) (by decide)).1,
   ((C9_find_blender_precedence [("BLENDER_EXE", "/opt/bl")] "/home/u"
      (fun p => p = "/opt/bl" ∨ p = "/usr/bin/blender") (some "/path/blender")).1
      "/opt/bl" (by decide) (by decide) (by decide)).2,
   fun h => ((C9_find_blender_precedence [] "/home/u" (fun _ => false) none).2.1
      h).2.1⟩

theorem envGet_append (env l : Env) (k v : String)
    (h : envGet env k = some v) : envGet (env ++ l) k = some v := by
  unfold envGet at h ⊢
  rw [List.find?_append]
  cases hf : env.find? (fun p => p.1 == k) with
  | none =>
    rw [hf] at h
    exact absurd h (by simp)
  | some p =>
    rw [hf] at h
    simpa using h

theorem envSetdefault_preserves (env : Env) (key value k v : String)
    (h : envGet env k = some v) :
    envGet (envSetdefault env key value) k = some v := by
  unfold envSetdefault
  split
  · exact h
  · exact envGet_append env [(key, value)] k v h

/-- `setdefault` never overwrites: a key already bound in the environment
keeps its value through one `.env` line. -/
theorem processEnvLine_preserves (env : Env) (line k v : String)
    (h : envGet env k = some v) :
    envGet (processEnvLine env line) k = some v := by
  simp only [processEnvLine]
  split
  · exact h
  · split
    · exact h
    · exact envSetdefault_preserves env _ _ k v h

/-- A key already bound keeps its value through a whole `.env` file. -/
theorem processEnvLines_preserves (lines : List String) (env : Env) (k v : String)
    (h : envGet env k = some v) :
    envGet (processEnvLines env lines) k = some v := by
  induction lines generalizing env with
  | nil => exact h
  | cons line rest ih =>
    exact ih (processEnvLine env line) (processEnvLine_preserves env line k v h)

/-- C10: load_env only sets keys that are absent — every key already set
in the process environment keeps its value — and whatever binding holds
after the current directory's `.env` is processed (in particular a value
taken from it for a previously absent key) survives the home directory's
`.env`, because the cwd file is read first. -/
theorem C10_load_env_setdefault_precedence (env : Env) (k v : String) :
    (∀ cwdF homeF : Option (List String),
      envGet env k = some v → envGet (load_env cwdF homeF env) k = some v) ∧
    (∀ cwdLines homeLines : List String,
      envGet (processEnvLines env cwdLines) k = some v →
      envGet (load_env (some cwdLines) (some homeLines) env) k = some v) := by
  constructor
  · intro cwdF homeF h
    unfold load_env
    cases cwdF with
    | none =>
      cases homeF with
      | none => exact h
      | some hl => exact processEnvLines_preserves hl env k v h
    | some cl =>
      cases homeF with
      | none => exact processEnvLines_preserves cl env k v h
      | some hl =>
        exact processEnvLines_preserves hl _ k v
          (processEnvLines_preserves cl env k v h)
  · intro cwdLines homeLines h
    exact processEnvLines_preserves homeLines _ k v h

/-- Concrete instantiation of `C10_load_env_setdefault_precedence`: a key
defined differently in both `.env` files gets the cwd file's value, and a
key preset in the process environment is untouched by a conflicting `.env`
entry. -/
theorem C10_load_env_setdefault_precedence_witness :
    envGet (load_env (some ["KEY=cwd_value"]) (some ["KEY=home_value"])
        [("PRESET", "x")]) "KEY" = some "cwd_value" ∧
    envGet (load_env (some ["PRESET=other"]) none [("PRESET", "x")]) "PRESET"
      = some "x" :=
  ⟨(C10_load_env_setdefault_precedence [("PRESET", "x")] "KEY" "cwd_value").2
      ["KEY=cwd_value"] ["KEY=home_value"] (by decide),
   (C10_load_env_setdefault_precedence [("PRESET", "x")] "PRESET" "x").1
      (some ["PRESET=other"]) none (by decide)⟩

/-- The loop invariant of `decimate_meshes`: the accumulated scene is
always the host's interpretation of the accumulated request trace. -/
theorem decimateStep_foldl_invariant (ratio : Rat) (scene : Scene)
    (host : Scene → BpyReq → Scene)
    (newName : Scene → String → String → String) (names : List String) :
    ∀ acc : Scene × List BpyReq,
      acc.1 = acc.2.foldl host scene →
      (names.foldl (decimateStep ratio host newName) acc).1
        = ((names.foldl (decimateStep ratio host newName) acc).2).foldl host scene := by
  induction names with
  | nil => exact fun acc h => h
  | cons n t ih =>
    intro acc h
    apply ih
    simp only [decimateStep, List.foldl_append]
    rw [h]

/-- C7: scripts never create or destroy entities themselves. The scene
after `decimate_meshes` is exactly the host application's interpretation
of the request trace the script issued (every mutation, including creating
and applying the Decimate modifier, factors through the host's scripting
API), and `get_objects_info` is a pure observation producing exactly one
record per host-owned object, leaving the scene untouched. -/
theorem C7_entity_lifecycle_host_owned :
    (∀ (ratio : Rat) (scene : Scene) (host : Scene → BpyReq → Scene)
        (newName : Scene → String → String → String),
      (decimate_meshes ratio scene host newName).1
        = ((decimate_meshes ratio scene host newName).2).foldl host scene) ∧
    (∀ scene : Scene,
      (get_objects_info scene).map ObjInfo.name = scene.objects.map SceneObj.name) := by
  constructor
  · intro ratio scene host newName
    unfold decimate_meshes
    exact decimateStep_foldl_invariant ratio scene host newName _ (scene, []) rfl
  · intro scene
    unfold get_objects_info
    rw [List.map_map]
    rfl

end Blender
